import Mathlib

/-!
Verification of the connection-lifecycle controller, update scheduler and
registration engine of the Anycubic Cloud coordinator
(custom_components/anycubic_ha_integration/coordinator.py), as a shallow
embedding in Lean.

Machine time (Python int(time.time())) is modelled as a Nat passed
explicitly to each evaluation.  The configuration constants
(MQTT_ACTION_RESPONSE_ALIVE_SECONDS, MQTT_IDLE_DISCONNECT_SECONDS,
MAX_FAILED_UPDATES, FAILED_UPDATE_DELAY, DEFAULT_SCAN_INTERVAL) come from
const.py, which is outside the analysed source; they are taken as explicit
parameters.
-/

namespace AnycubicCoordinator

/-- The per-printer activity flags read by the policy predicates
(data_models/printer.py fields used in coordinator.py lines 124-149). -/
structure Printer where
  is_busy : Bool
  printer_online : Bool
  primary_drying_status_is_drying : Bool
  secondary_drying_status_is_drying : Bool
  latest_project_print_in_progress : Bool
deriving DecidableEq, Repr

/-- helpers.AnycubicMQTTConnectMode. -/
inductive ConnectMode where
  | Printing_Only
  | Printing_Drying
  | Device_Online
  | Always
  | Never_Connect
deriving DecidableEq, Repr

/-- The coordinator state read by the connection policy functions.
The fleet dict self._anycubic_printers is modelled by its list of values
(only any/all over the values is ever used). -/
structure CoordState where
  printers : List Printer
  mqtt_connection_mode : ConnectMode
  mqtt_manually_connected : Bool
  mqtt_last_action : Option Nat
  mqtt_idle_since : Option Nat
  mqtt_is_started : Bool
  hass_is_stopping : Bool
  hass_state_running : Bool
  supports_mqtt_login : Bool
deriving DecidableEq, Repr

/-- coordinator.py line 124: _any_printers_are_printing. -/
def any_printers_are_printing (s : CoordState) : Bool :=
  s.printers.any (fun p => p.is_busy)

/-- coordinator.py line 129: _any_printers_are_drying. -/
def any_printers_are_drying (s : CoordState) : Bool :=
  s.printers.any (fun p =>
    p.primary_drying_status_is_drying || p.secondary_drying_status_is_drying)

/-- coordinator.py line 137: _any_printers_are_online. -/
def any_printers_are_online (s : CoordState) : Bool :=
  s.printers.any (fun p => p.printer_online || p.is_busy)

/-- coordinator.py line 144: _no_printers_are_printing. -/
def no_printers_are_printing (s : CoordState) : Bool :=
  s.printers.all (fun p =>
    !p.is_busy && !p.latest_project_print_in_progress)

/-- coordinator.py line 151: _check_mqtt_connection_last_action_waiting.
graceW is MQTT_ACTION_RESPONSE_ALIVE_SECONDS, now is int(time.time()). -/
def check_mqtt_connection_last_action_waiting
    (graceW now : Nat) (s : CoordState) : Bool :=
  match s.mqtt_last_action with
  | some la => decide (now < la + graceW)
  | none => false

/-- coordinator.py line 160: _check_mqtt_connection_modes_active. -/
def check_mqtt_connection_modes_active
    (graceW now : Nat) (s : CoordState) : Bool :=
  if check_mqtt_connection_last_action_waiting graceW now s then
    true
  else if s.mqtt_connection_mode = ConnectMode.Printing_Only &&
      any_printers_are_printing s then
    true
  else if s.mqtt_connection_mode = ConnectMode.Printing_Drying &&
      (any_printers_are_printing s || any_printers_are_drying s) then
    true
  else if s.mqtt_connection_mode = ConnectMode.Device_Online &&
      any_printers_are_online s then
    true
  else if s.mqtt_connection_mode = ConnectMode.Always then
    true
  else
    false

/-- coordinator.py line 190: _check_mqtt_connection_modes_inactive. -/
def check_mqtt_connection_modes_inactive
    (graceW now : Nat) (s : CoordState) : Bool :=
  if check_mqtt_connection_last_action_waiting graceW now s then
    false
  else if s.mqtt_connection_mode = ConnectMode.Printing_Only &&
      no_printers_are_printing s then
    true
  else if s.mqtt_connection_mode = ConnectMode.Printing_Drying &&
      (no_printers_are_printing s && !any_printers_are_drying s) then
    true
  else if s.mqtt_connection_mode = ConnectMode.Device_Online &&
      !any_printers_are_online s then
    true
  else if s.mqtt_connection_mode = ConnectMode.Always then
    false
  else
    false

/-- coordinator.py line 566: _anycubic_mqtt_connection_should_start. -/
def anycubic_mqtt_connection_should_start
    (graceW now : Nat) (s : CoordState) : Bool :=
  if s.mqtt_connection_mode = ConnectMode.Never_Connect ||
      !s.supports_mqtt_login then
    false
  else
    !s.mqtt_is_started &&
    !s.hass_is_stopping &&
    s.hass_state_running &&
    (check_mqtt_connection_modes_active graceW now s ||
      s.mqtt_manually_connected)

/-- coordinator.py line 597: _anycubic_mqtt_connection_is_idle.
Mutates self._mqtt_idle_since; returns (result, new idle_since).
idleW is MQTT_IDLE_DISCONNECT_SECONDS. -/
def anycubic_mqtt_connection_is_idle
    (graceW idleW now : Nat) (s : CoordState) : Bool × Option Nat :=
  if check_mqtt_connection_modes_inactive graceW now s then
    let since := s.mqtt_idle_since.getD now
    if since + idleW < now then
      (true, none)
    else
      (false, some since)
  else
    (false, none)

/-- coordinator.py line 584: _anycubic_mqtt_connection_should_stop.
Python's short-circuit `and`/`or` means _anycubic_mqtt_connection_is_idle
(and hence its mutation of idle_since) runs only when mqtt_is_started and
not hass.is_stopping; returns (result, new idle_since). -/
def anycubic_mqtt_connection_should_stop
    (graceW idleW now : Nat) (s : CoordState) : Bool × Option Nat :=
  if s.mqtt_is_started then
    if s.hass_is_stopping then
      (true, s.mqtt_idle_since)
    else
      let r := anycubic_mqtt_connection_is_idle graceW idleW now s
      (r.1 && !s.mqtt_manually_connected, r.2)
  else
    (false, s.mqtt_idle_since)

/-- The spec's per-mode activity predicate, stated from the spec's words
for the three activity-gated modes (PrintingOnly: some printer busy;
PrintingOrDrying: some busy or drying; DeviceOnline: some online or
busy).  Used to compare should_start against the spec. -/
def spec_mode_activity_predicate (s : CoordState) : Bool :=
  match s.mqtt_connection_mode with
  | ConnectMode.Printing_Only => any_printers_are_printing s
  | ConnectMode.Printing_Drying =>
      any_printers_are_printing s || any_printers_are_drying s
  | ConnectMode.Device_Online => any_printers_are_online s
  | ConnectMode.Always => true
  | ConnectMode.Never_Connect => false

/-- A printer that is busy (and online, with a print in progress). -/
def printerBusy : Printer :=
  { is_busy := true, printer_online := true,
    primary_drying_status_is_drying := false,
    secondary_drying_status_is_drying := false,
    latest_project_print_in_progress := true }

/-- A fully idle, offline printer. -/
def printerIdle : Printer :=
  { is_busy := false, printer_online := false,
    primary_drying_status_is_drying := false,
    secondary_drying_status_is_drying := false,
    latest_project_print_in_progress := false }

/-- Coordinator state refuting C1 as stated: PrintingOnly mode with a busy
printer, every condition listed by the claim satisfied, but the
authentication mode does not support MQTT login. -/
def c1CexState : CoordState :=
  { printers := [printerBusy]
    mqtt_connection_mode := ConnectMode.Printing_Only
    mqtt_manually_connected := false
    mqtt_last_action := none
    mqtt_idle_since := none
    mqtt_is_started := false
    hass_is_stopping := false
    hass_state_running := true
    supports_mqtt_login := false }

/-- Same state with MQTT login supported, for the amended C1. -/
def c1WitState : CoordState :=
  { c1CexState with supports_mqtt_login := true }

/-- State for the C2 witness: NeverConnect with a busy printer, manual
override on, and a user action just recorded. -/
def c2WitState : CoordState :=
  { printers := [printerBusy]
    mqtt_connection_mode := ConnectMode.Never_Connect
    mqtt_manually_connected := true
    mqtt_last_action := some 95
    mqtt_idle_since := none
    mqtt_is_started := false
    hass_is_stopping := false
    hass_state_running := true
    supports_mqtt_login := true }

/-- State for the C3 witness: every printer idle in PrintingOnly mode, the
channel open, and an action recorded at t=95; evaluated at t=100 with a
30-second grace window. -/
def c3WitState : CoordState :=
  { printers := [printerIdle]
    mqtt_connection_mode := ConnectMode.Printing_Only
    mqtt_manually_connected := false
    mqtt_last_action := some 95
    mqtt_idle_since := some 0
    mqtt_is_started := true
    hass_is_stopping := false
    hass_state_running := true
    supports_mqtt_login := true }

/-- State for the C9 witness: Always mode, manual override on, busy
printer, live grace window, but no MQTT login support. -/
def c9WitState : CoordState :=
  { printers := [printerBusy]
    mqtt_connection_mode := ConnectMode.Always
    mqtt_manually_connected := true
    mqtt_last_action := some 95
    mqtt_idle_since := none
    mqtt_is_started := false
    hass_is_stopping := false
    hass_state_running := true
    supports_mqtt_login := false }

/-- coordinator.py line 597, abstracted over the result of the
inactive-mode check: one observation of the idle tracker performed at
time now, given the stored idle_since.  Returns (close decision, new
idle_since), mirroring _anycubic_mqtt_connection_is_idle exactly (the
equality with the coordinator function is anycubic_is_idle_eq_observe
below). -/
def is_idle_observe (idleW : Nat) (idle_since : Option Nat)
    (eligible : Bool) (now : Nat) : Bool × Option Nat :=
  if eligible then
    let since := idle_since.getD now
    if since + idleW < now then (true, none) else (false, some since)
  else
    (false, none)

/-- A sequence of idle-tracker calls: each element of the list is
(evaluation time, result of the inactive-mode check at that call); the
idle_since state is threaded through the calls and the list of close
decisions is returned. -/
def observe_run (idleW : Nat) (st : Option Nat) :
    List (Nat × Bool) → List Bool
  | [] => []
  | (t, e) :: rest =>
    let r := is_idle_observe idleW st e t
    r.1 :: observe_run idleW r.2 rest

/-- Outcome of the delegated credential check (_check_or_save_tokens) and
device polls (printer.update_info_from_api) inside one call of
get_anycubic_updates — the body of the try at coordinator.py 825-833. -/
inductive UpdateOutcome where
  | ok
  | authFailedCredentials
  | authFailedPoll
  | parsingError
  | apiError
  | otherError
deriving DecidableEq, Repr

/-- How one call of get_anycubic_updates exits: returns False (cooldown
branch), returns True, propagates ConfigEntryAuthFailed unchanged, or
raises UpdateFailed wrapping the recoverable error. -/
inductive UpdExit where
  | retFalse
  | retTrue
  | raiseAuthFailed
  | raiseUpdateFailed
deriving DecidableEq, Repr

/-- The two coordinator fields mutated by get_anycubic_updates:
self._failed_updates and self._last_state_update. -/
structure UpdState where
  failed_updates : Nat
  last_state_update : Option Nat
deriving DecidableEq, Repr

/-- What one call of get_anycubic_updates did: its exit, whether the
credential check ran, and whether the device polls ran. -/
structure UpdResult where
  exitKind : UpdExit
  checked_credentials : Bool
  polled_devices : Bool
deriving DecidableEq, Repr

/-- coordinator.py 815-854: get_anycubic_updates.  maxFailed is
MAX_FAILED_UPDATES, failedDelay is FAILED_UPDATE_DELAY.  When the failure
count has reached the budget the call returns False at once, stamping
last_state_update with now + FAILED_UPDATE_DELAY and zeroing the count,
without touching credentials or devices.  Otherwise last_state_update is
stamped with now, the credential check and the polls run, auth failures
re-raise unchanged, parsing/API/unknown errors increment the count and
raise UpdateFailed, and success zeroes the count (re-stamping
last_state_update at line 852). -/
def get_anycubic_updates (maxFailed failedDelay now : Nat)
    (outcome : UpdateOutcome) (s : UpdState) : UpdResult × UpdState :=
  if maxFailed ≤ s.failed_updates then
    (⟨UpdExit.retFalse, false, false⟩,
     ⟨0, some (now + failedDelay)⟩)
  else
    let s1 : UpdState := ⟨s.failed_updates, some now⟩
    match outcome with
    | UpdateOutcome.ok =>
        (⟨UpdExit.retTrue, true, true⟩, ⟨0, some now⟩)
    | UpdateOutcome.authFailedCredentials =>
        (⟨UpdExit.raiseAuthFailed, true, false⟩, s1)
    | UpdateOutcome.authFailedPoll =>
        (⟨UpdExit.raiseAuthFailed, true, true⟩, s1)
    | UpdateOutcome.parsingError =>
        (⟨UpdExit.raiseUpdateFailed, true, true⟩,
         ⟨s1.failed_updates + 1, s1.last_state_update⟩)
    | UpdateOutcome.apiError =>
        (⟨UpdExit.raiseUpdateFailed, true, true⟩,
         ⟨s1.failed_updates + 1, s1.last_state_update⟩)
    | UpdateOutcome.otherError =>
        (⟨UpdExit.raiseUpdateFailed, true, true⟩,
         ⟨s1.failed_updates + 1, s1.last_state_update⟩)

/-- coordinator.py 401-405 (_async_update_data), restricted to the poll
scheduling decision: get_anycubic_updates runs only when no last-update
time is recorded (None or 0, following Python truthiness of
`not self._last_state_update`) or the scan interval has passed.  Returns
(whether get_anycubic_updates ran, its result if it ran, new state). -/
def update_tick (maxFailed failedDelay scanInterval now : Nat)
    (outcome : UpdateOutcome) (s : UpdState) :
    Bool × Option UpdResult × UpdState :=
  let due := match s.last_state_update with
    | none => true
    | some v => (v == 0) || decide (v + scanInterval < now)
  if due then
    let r := get_anycubic_updates maxFailed failedDelay now outcome s
    (true, some r.1, r.2)
  else
    (false, none, s)

/-- The observable steps of _stop_anycubic_mqtt_connection
(coordinator.py 632-647): per-printer unsubscribe via the executor, the
disconnect request, the bounded wait for disconnect confirmation, and
cancellation of the background connect task. -/
inductive StopOp where
  | unsubscribe (printer_id : Nat)
  | disconnect
  | waitForDisconnect
  | cancelTask
deriving DecidableEq, Repr

/-- The background connect task held in self._mqtt_task; done mirrors
task.done(). -/
structure MqttTask where
  done : Bool
deriving DecidableEq, Repr

/-- The coordinator state touched by the stop sequence: the printer dict
(as (printer id, whether that printer's unsubscribe errors internally))
and the connect-task slot. -/
structure StopState where
  printers : List (Nat × Bool)
  mqtt_task : Option MqttTask
deriving DecidableEq, Repr

/-- Modelled from the spec: mqtt_unsubscribe_printer_status of the push
client (anycubic_cloud_api, not part of the analysed source).  The spec
says per-device unsubscribe errors are logged and swallowed and never
abort the stop sequence, so the call returns normally whether or not the
underlying unsubscribe operation errors internally. -/
def mqtt_unsubscribe_printer_status (_fails_internally : Bool) :
    Except String Unit :=
  Except.ok ()

/-- The unsubscribe loop of coordinator.py 633-637: each printer's
unsubscribe runs in turn; a raised error would propagate and abort the
remainder of the loop. -/
def run_unsubscribes : List (Nat × Bool) → Except String (List StopOp)
  | [] => Except.ok []
  | (pid, fails) :: rest =>
    match mqtt_unsubscribe_printer_status fails with
    | Except.ok _ =>
      match run_unsubscribes rest with
      | Except.ok ops => Except.ok (StopOp.unsubscribe pid :: ops)
      | Except.error e => Except.error e
    | Except.error e => Except.error e

/-- coordinator.py 632-647: _stop_anycubic_mqtt_connection.  Unsubscribes
every printer, requests the disconnect, waits for disconnect
confirmation, cancels the connect task if one exists and is not done,
and clears the task slot.  Returns the trace of steps in execution order
together with the final state. -/
def stop_anycubic_mqtt_connection (s : StopState) :
    Except String (List StopOp × StopState) :=
  match run_unsubscribes s.printers with
  | Except.error e => Except.error e
  | Except.ok unsubOps =>
    let cancelOps :=
      match s.mqtt_task with
      | some task => if !task.done then [StopOp.cancelTask] else []
      | none => []
    Except.ok
      (unsubOps ++ [StopOp.disconnect, StopOp.waitForDisconnect] ++ cancelOps,
       ⟨s.printers, none⟩)

/-- How _add_entities_for_unregistered_descriptors disposes of one
descriptor: permanently dropped, deferred for a later evaluation, or
promoted to "instantiate now". -/
inductive DescriptorClass where
  | drop
  | defer
  | promote
deriving DecidableEq, Repr

/-- An entity descriptor as seen by the registration loop
(coordinator.py 457-507): its identity plus the outcomes of the six
helpers.check_descriptor_* exclusion checks against the printer's
current capability snapshot (material type, ACE support, connected ACE
units, entry options).  The checks are pure functions of the descriptor
and the snapshot, so against an unchanged snapshot their outcomes are
fixed and can be carried on the descriptor itself.  The last field
records whether description.printer_entity_type is None. -/
structure Descriptor where
  key : Nat
  status_not_lcd : Bool
  status_not_fdm : Bool
  ace_not_supported : Bool
  ace_primary_unavailable : Bool
  ace_secondary_unavailable : Bool
  drying_unavailable : Bool
  printer_entity_type_missing : Bool
deriving DecidableEq, Repr

/-- The descriptor dispatch of coordinator.py 458-498: the first three
checks drop the descriptor permanently (continue, not kept), the next
three defer it (kept in remaining_unregistered_descriptors), a
promote-candidate missing printer_entity_type raises ConfigEntryError,
anything else is promoted. -/
def classify_descriptor (d : Descriptor) : Except String DescriptorClass :=
  if d.status_not_lcd || d.status_not_fdm || d.ace_not_supported then
    Except.ok DescriptorClass.drop
  else if d.ace_primary_unavailable || d.ace_secondary_unavailable ||
      d.drying_unavailable then
    Except.ok DescriptorClass.defer
  else if d.printer_entity_type_missing then
    Except.error "missing printer_entity_type"
  else
    Except.ok DescriptorClass.promote

/-- The descriptor loop for one (printer, platform) entry
(coordinator.py 455-507): returns (promoted descriptors in order,
deferred descriptors in order); an error aborts the whole evaluation. -/
def eval_descriptors :
    List Descriptor → Except String (List Descriptor × List Descriptor)
  | [] => Except.ok ([], [])
  | d :: rest =>
    match classify_descriptor d with
    | Except.error e => Except.error e
    | Except.ok DescriptorClass.drop => eval_descriptors rest
    | Except.ok DescriptorClass.defer =>
      match eval_descriptors rest with
      | Except.ok pr => Except.ok (pr.1, d :: pr.2)
      | Except.error e => Except.error e
    | Except.ok DescriptorClass.promote =>
      match eval_descriptors rest with
      | Except.ok pr => Except.ok (d :: pr.1, pr.2)
      | Except.error e => Except.error e

/-- One (printer, platform) cell of the pending-descriptor map, with the
map update of coordinator.py 509-515: a missing entry is skipped
(continue at 443-446, modelled as the cell none), a nonempty remainder
is written back, an empty remainder pops the platform key (and, with
the printer's dict then empty, the printer key — both modelled as the
cell becoming none). -/
def eval_descriptor_cell :
    Option (List Descriptor) →
      Except String (List Descriptor × Option (List Descriptor))
  | none => Except.ok ([], none)
  | some descs =>
    match eval_descriptors descs with
    | Except.error e => Except.error e
    | Except.ok pr =>
      Except.ok (pr.1, if pr.2.length > 0 then some pr.2 else none)

/-- One run of _add_entities_for_unregistered_descriptors
(coordinator.py 438-517) for a platform: every configured printer's cell
is evaluated in order and the promoted descriptors are collected into
new_entities. -/
def add_entities_run :
    List (Option (List Descriptor)) →
      Except String (List Descriptor × List (Option (List Descriptor)))
  | [] => Except.ok ([], [])
  | c :: rest =>
    match eval_descriptor_cell c with
    | Except.error e => Except.error e
    | Except.ok pc =>
      match add_entities_run rest with
      | Except.ok pr => Except.ok (pc.1 ++ pr.1, pc.2 :: pr.2)
      | Except.error e => Except.error e

/-- A descriptor the first exclusion check drops (for the C8 witness). -/
def c8DropDesc : Descriptor :=
  { key := 1, status_not_lcd := true, status_not_fdm := false,
    ace_not_supported := false, ace_primary_unavailable := false,
    ace_secondary_unavailable := false, drying_unavailable := false,
    printer_entity_type_missing := false }

/-- A descriptor deferred by the primary-ACE-unavailable check (for the
C8 witness). -/
def c8DeferDesc : Descriptor :=
  { key := 2, status_not_lcd := false, status_not_fdm := false,
    ace_not_supported := false, ace_primary_unavailable := true,
    ace_secondary_unavailable := false, drying_unavailable := false,
    printer_entity_type_missing := false }

/-- A descriptor promoted to instantiation (for the C8 witness). -/
def c8PromoteDesc : Descriptor :=
  { key := 3, status_not_lcd := false, status_not_fdm := false,
    ace_not_supported := false, ace_primary_unavailable := false,
    ace_secondary_unavailable := false, drying_unavailable := false,
    printer_entity_type_missing := false }

/-- C1 counterexample: in PrintingOnly mode with a busy printer, channel
not started, host running and not stopping, no action in the grace window
(grace 30s, now 100, no recorded action) and manual override off, the
activity predicate holds yet should_start() returns false, because the
account's authentication mode does not support MQTT login — a condition
the claim does not mention. -/
theorem shouldStart_c1_counterexample :
    c1CexState.mqtt_connection_mode ≠ ConnectMode.Always ∧
    c1CexState.mqtt_connection_mode ≠ ConnectMode.Never_Connect ∧
    c1CexState.mqtt_is_started = false ∧
    c1CexState.hass_is_stopping = false ∧
    c1CexState.hass_state_running = true ∧
    check_mqtt_connection_last_action_waiting 30 100 c1CexState = false ∧
    c1CexState.mqtt_manually_connected = false ∧
    spec_mode_activity_predicate c1CexState = true ∧
    anycubic_mqtt_connection_should_start 30 100 c1CexState = false := by
  decide

/-- C1 (amended): for every mode other than Always and NeverConnect, when
the channel is not already started, the host is not shutting down and has
finished startup, no user action is within the grace window, the manual
override is off, and the authentication mode supports MQTT login,
should_start() returns true iff the mode's activity predicate holds over
the fleet snapshot. -/
theorem shouldStart_iff_mode_activity (graceW now : Nat) (s : CoordState)
    (hm1 : s.mqtt_connection_mode ≠ ConnectMode.Always)
    (hm2 : s.mqtt_connection_mode ≠ ConnectMode.Never_Connect)
    (hstarted : s.mqtt_is_started = false)
    (hstop : s.hass_is_stopping = false)
    (hrun : s.hass_state_running = true)
    (hgrace : check_mqtt_connection_last_action_waiting graceW now s = false)
    (hmanual : s.mqtt_manually_connected = false)
    (hlogin : s.supports_mqtt_login = true) :
    anycubic_mqtt_connection_should_start graceW now s =
      spec_mode_activity_predicate s := by
  cases hm : s.mqtt_connection_mode <;>
    simp_all [anycubic_mqtt_connection_should_start,
      check_mqtt_connection_modes_active, spec_mode_activity_predicate]

/-- Witness for the amended C1 at a concrete state: PrintingOnly mode with
a busy printer and MQTT login supported. -/
theorem shouldStart_iff_mode_activity_witness :
    anycubic_mqtt_connection_should_start 30 100 c1WitState =
      spec_mode_activity_predicate c1WitState :=
  shouldStart_iff_mode_activity 30 100 c1WitState (by decide) (by decide)
    (by decide) (by decide) (by decide) (by decide) (by decide) (by decide)

/-- C2: in NeverConnect mode should_start() returns false for every state:
any printer activity, the manual override and the action grace window are
all irrelevant — the mode is checked first and short-circuits to false. -/
theorem shouldStart_neverConnect_false (graceW now : Nat) (s : CoordState)
    (h : s.mqtt_connection_mode = ConnectMode.Never_Connect) :
    anycubic_mqtt_connection_should_start graceW now s = false := by
  simp [anycubic_mqtt_connection_should_start, h]

/-- Witness for C2: even with a busy printer, manual override on and a
user action inside the grace window, NeverConnect yields false. -/
theorem shouldStart_neverConnect_false_witness :
    anycubic_mqtt_connection_should_start 30 100 c2WitState = false :=
  shouldStart_neverConnect_false 30 100 c2WitState (by decide)

/-- C3: at any evaluation time strictly before last_action +
MQTT_ACTION_RESPONSE_ALIVE_SECONDS, with the host not shutting down, the
mode-inactive check and should_stop() both return false, whatever the
printers report. -/
theorem graceWindow_blocks_stop_and_idle (graceW idleW now la : Nat)
    (s : CoordState)
    (hla : s.mqtt_last_action = some la)
    (hnow : now < la + graceW)
    (hstop : s.hass_is_stopping = false) :
    check_mqtt_connection_modes_inactive graceW now s = false ∧
    (anycubic_mqtt_connection_should_stop graceW idleW now s).1 = false := by
  have hw : check_mqtt_connection_last_action_waiting graceW now s = true := by
    simp [check_mqtt_connection_last_action_waiting, hla, hnow]
  refine ⟨by simp [check_mqtt_connection_modes_inactive, hw], ?_⟩
  cases hst : s.mqtt_is_started <;>
    simp [anycubic_mqtt_connection_should_stop, hst, hstop,
      anycubic_mqtt_connection_is_idle,
      check_mqtt_connection_modes_inactive, hw]

/-- Witness for C3: the no-activity state is not idle-eligible and is not
stopped while the grace window is live. -/
theorem graceWindow_blocks_stop_and_idle_witness :
    check_mqtt_connection_modes_inactive 30 100 c3WitState = false ∧
    (anycubic_mqtt_connection_should_stop 30 60 100 c3WitState).1 = false :=
  graceWindow_blocks_stop_and_idle 30 60 100 95 c3WitState rfl (by decide)
    (by decide)

/-- C9: when the authentication mode does not support MQTT login,
should_start() returns false for every mode (Always included), manual
override, grace window and printer activity notwithstanding. -/
theorem shouldStart_no_mqtt_login_false (graceW now : Nat) (s : CoordState)
    (h : s.supports_mqtt_login = false) :
    anycubic_mqtt_connection_should_start graceW now s = false := by
  simp [anycubic_mqtt_connection_should_start, h]

/-- Witness for C9 at the concrete Always-mode state. -/
theorem shouldStart_no_mqtt_login_false_witness :
    anycubic_mqtt_connection_should_start 30 100 c9WitState = false :=
  shouldStart_no_mqtt_login_false 30 100 c9WitState (by decide)

/-- The idle-tracker step is exactly the coordinator's
_anycubic_mqtt_connection_is_idle with the inactive-mode check passed as
an argument. -/
theorem anycubic_is_idle_eq_observe (graceW idleW now : Nat)
    (s : CoordState) :
    anycubic_mqtt_connection_is_idle graceW idleW now s =
      is_idle_observe idleW s.mqtt_idle_since
        (check_mqtt_connection_modes_inactive graceW now s) now := rfl

/-- C4 counterexample: with idle threshold 10, the eligible observations
at times 0, 5 and 11 are spaced 5 and 6 seconds apart — both less than
the threshold — yet the third observation returns "close now", because
the tracker fires on elapsed time since the first eligible observation,
not on the spacing between observations. -/
theorem idleTracker_c4_counterexample :
    (5 - 0 < 10 ∧ 11 - 5 < 10) ∧
    observe_run 10 none [(0, true), (5, true), (11, true)] =
      [false, false, true] := by
  decide

/-- A run of eligible observations all of whose times lie within the idle
threshold of the stored idle-since never fires (and leaves idle-since in
place). -/
theorem eligible_run_within_threshold_no_fire (idleW t0 : Nat)
    (ts : List Nat) (hts : ∀ u ∈ ts, u ≤ t0 + idleW) :
    observe_run idleW (some t0) (ts.map (fun u => (u, true))) =
      ts.map (fun _ => false) := by
  induction ts with
  | nil => rfl
  | cons t rest ih =>
    have ht : t ≤ t0 + idleW := hts t (List.mem_cons_self t rest)
    have hnotlt : ¬ (t0 + idleW < t) := Nat.not_lt.mpr ht
    have hstep : is_idle_observe idleW (some t0) true t = (false, some t0) := by
      simp [is_idle_observe, hnotlt]
    simp only [List.map_cons, observe_run, hstep]
    exact congrArg (List.cons false)
      (ih (fun u hu => hts u (List.mem_cons_of_mem t hu)))

/-- C4 (amended): the first eligible observation records its time as
idle-since and returns false; a later eligible observation returns
"close now" exactly when more than the threshold has elapsed since
idle-since, clearing idle-since when it fires and keeping it otherwise;
a non-eligible observation clears idle-since and returns false; and a
run of eligible observations all within the threshold of the recorded
idle-since never produces a "close now". -/
theorem idleTracker_amended_behaviour (idleW t now t0 : Nat)
    (st : Option Nat) (ts : List Nat)
    (hts : ∀ u ∈ ts, u ≤ t0 + idleW) :
    is_idle_observe idleW none true t = (false, some t) ∧
    is_idle_observe idleW (some t0) true now =
      (if t0 + idleW < now then (true, none) else (false, some t0)) ∧
    is_idle_observe idleW st false now = (false, none) ∧
    observe_run idleW (some t0) (ts.map (fun u => (u, true))) =
      ts.map (fun _ => false) := by
  refine ⟨?_, ?_, rfl, eligible_run_within_threshold_no_fire idleW t0 ts hts⟩
  · simp [is_idle_observe, Nat.not_lt.mpr (Nat.le_add_right t idleW)]
  · by_cases h : t0 + idleW < now <;> simp [is_idle_observe, h]

/-- Witness for the amended C4 with threshold 10, idle-since 3 and the
eligible run at times 3, 8, 13. -/
theorem idleTracker_amended_behaviour_witness :
    is_idle_observe 10 none true 3 = (false, some 3) ∧
    is_idle_observe 10 (some 3) true 14 =
      (if 3 + 10 < 14 then (true, none) else (false, some 3)) ∧
    is_idle_observe 10 (some 7) false 14 = (false, none) ∧
    observe_run 10 (some 3) ([3, 8, 13].map (fun u => (u, true))) =
      [3, 8, 13].map (fun _ => false) :=
  idleTracker_amended_behaviour 10 3 14 3 (some 7) [3, 8, 13] (by decide)

/-- C5: once the consecutive-failure count has reached MAX_FAILED_UPDATES
(after exactly that many failed polls, each of which raised UpdateFailed
and incremented the count — last conjunct), the next get_anycubic_updates
call enters cooldown: it checks no credentials, polls no device, zeroes
the count and stamps last_state_update with now + FAILED_UPDATE_DELAY;
every scheduler tick at or before the end of the cooldown window issues
no credential check and no poll; the first tick past the window polls
again; and a successful poll resets the failure count to zero. -/
theorem failureBudget_cooldown_and_reset
    (maxFailed failedDelay scanInterval now t : Nat)
    (outcome : UpdateOutcome) (s s' : UpdState)
    (hmax : 0 < maxFailed)
    (hfull : maxFailed ≤ s.failed_updates)
    (hlow : s'.failed_updates < maxFailed) :
    (get_anycubic_updates maxFailed failedDelay now outcome s =
      (⟨UpdExit.retFalse, false, false⟩, ⟨0, some (now + failedDelay)⟩)) ∧
    (0 < now + failedDelay → t ≤ now + failedDelay + scanInterval →
      update_tick maxFailed failedDelay scanInterval t outcome
        ⟨0, some (now + failedDelay)⟩ =
        (false, none, ⟨0, some (now + failedDelay)⟩)) ∧
    (now + failedDelay + scanInterval < t →
      update_tick maxFailed failedDelay scanInterval t UpdateOutcome.ok
        ⟨0, some (now + failedDelay)⟩ =
        (true, some ⟨UpdExit.retTrue, true, true⟩, ⟨0, some t⟩)) ∧
    ((get_anycubic_updates maxFailed failedDelay now
        UpdateOutcome.ok s').2.failed_updates = 0) ∧
    (get_anycubic_updates maxFailed failedDelay now
        UpdateOutcome.apiError s' =
      (⟨UpdExit.raiseUpdateFailed, true, true⟩,
       ⟨s'.failed_updates + 1, some now⟩)) := by
  have hnle : ¬ maxFailed ≤ s'.failed_updates := Nat.not_le.mpr hlow
  refine ⟨?_, ?_, ?_, ?_, ?_⟩
  · simp [get_anycubic_updates, hfull]
  · intro hpos hle
    have h0 : (now + failedDelay == 0) = false := by
      simp [Nat.pos_iff_ne_zero.mp hpos]
    have h1 : ¬ (now + failedDelay + scanInterval < t) := Nat.not_lt.mpr hle
    simp [update_tick, h0, h1]
  · intro hlt
    simp [update_tick, hlt, get_anycubic_updates, Nat.not_le.mpr hmax]
  · simp [get_anycubic_updates, hnle]
  · simp [get_anycubic_updates, hnle]

/-- Witness for C5: budget 3, delay 120, scan interval 60, cooldown
entered at t=1000 from a state with 3 consecutive failures; the tick at
t=1100 is inside the window, a tick after t=1180 polls again. -/
theorem failureBudget_cooldown_and_reset_witness :
    (get_anycubic_updates 3 120 1000 UpdateOutcome.apiError ⟨3, some 990⟩ =
      (⟨UpdExit.retFalse, false, false⟩, ⟨0, some (1000 + 120)⟩)) ∧
    (0 < 1000 + 120 → 1100 ≤ 1000 + 120 + 60 →
      update_tick 3 120 60 1100 UpdateOutcome.apiError
        ⟨0, some (1000 + 120)⟩ =
        (false, none, ⟨0, some (1000 + 120)⟩)) ∧
    (1000 + 120 + 60 < 1100 →
      update_tick 3 120 60 1100 UpdateOutcome.ok ⟨0, some (1000 + 120)⟩ =
        (true, some ⟨UpdExit.retTrue, true, true⟩, ⟨0, some 1100⟩)) ∧
    ((get_anycubic_updates 3 120 1000
        UpdateOutcome.ok ⟨1, some 990⟩).2.failed_updates = 0) ∧
    (get_anycubic_updates 3 120 1000 UpdateOutcome.apiError ⟨1, some 990⟩ =
      (⟨UpdExit.raiseUpdateFailed, true, true⟩, ⟨1 + 1, some 1000⟩)) :=
  failureBudget_cooldown_and_reset 3 120 60 1000 1100
    UpdateOutcome.apiError ⟨3, some 990⟩ ⟨1, some 990⟩
    (by decide) (by decide) (by decide)

/-- C6: below the failure budget, an authentication failure raised by the
credential check or by a device poll propagates as ConfigEntryAuthFailed
unchanged, leaving the failure count untouched and stamping the normal
last-update time (no cooldown sentinel), while parsing and API errors
increment the count and are re-raised as UpdateFailed. -/
theorem authFailure_bypasses_failure_budget
    (maxFailed failedDelay now : Nat) (s : UpdState)
    (hlow : s.failed_updates < maxFailed) :
    (get_anycubic_updates maxFailed failedDelay now
        UpdateOutcome.authFailedCredentials s =
      (⟨UpdExit.raiseAuthFailed, true, false⟩,
       ⟨s.failed_updates, some now⟩)) ∧
    (get_anycubic_updates maxFailed failedDelay now
        UpdateOutcome.authFailedPoll s =
      (⟨UpdExit.raiseAuthFailed, true, true⟩,
       ⟨s.failed_updates, some now⟩)) ∧
    (get_anycubic_updates maxFailed failedDelay now
        UpdateOutcome.parsingError s =
      (⟨UpdExit.raiseUpdateFailed, true, true⟩,
       ⟨s.failed_updates + 1, some now⟩)) ∧
    (get_anycubic_updates maxFailed failedDelay now
        UpdateOutcome.apiError s =
      (⟨UpdExit.raiseUpdateFailed, true, true⟩,
       ⟨s.failed_updates + 1, some now⟩)) := by
  have hnle : ¬ maxFailed ≤ s.failed_updates := Nat.not_le.mpr hlow
  refine ⟨?_, ?_, ?_, ?_⟩ <;> simp [get_anycubic_updates, hnle]

/-- Witness for C6 with budget 3 and one prior failure. -/
theorem authFailure_bypasses_failure_budget_witness :
    (get_anycubic_updates 3 120 1000
        UpdateOutcome.authFailedCredentials ⟨1, some 990⟩ =
      (⟨UpdExit.raiseAuthFailed, true, false⟩, ⟨1, some 1000⟩)) ∧
    (get_anycubic_updates 3 120 1000
        UpdateOutcome.authFailedPoll ⟨1, some 990⟩ =
      (⟨UpdExit.raiseAuthFailed, true, true⟩, ⟨1, some 1000⟩)) ∧
    (get_anycubic_updates 3 120 1000
        UpdateOutcome.parsingError ⟨1, some 990⟩ =
      (⟨UpdExit.raiseUpdateFailed, true, true⟩, ⟨1 + 1, some 1000⟩)) ∧
    (get_anycubic_updates 3 120 1000
        UpdateOutcome.apiError ⟨1, some 990⟩ =
      (⟨UpdExit.raiseUpdateFailed, true, true⟩, ⟨1 + 1, some 1000⟩)) :=
  authFailure_bypasses_failure_budget 3 120 1000 ⟨1, some 990⟩ (by decide)

/-- The unsubscribe loop never errors and unsubscribes every printer in
dict order, whatever each device's internal failure flag. -/
theorem run_unsubscribes_ok (ps : List (Nat × Bool)) :
    run_unsubscribes ps =
      Except.ok (ps.map (fun pf => StopOp.unsubscribe pf.1)) := by
  induction ps with
  | nil => rfl
  | cons p rest ih =>
    cases p with
    | mk pid fails =>
      simp [run_unsubscribes, mqtt_unsubscribe_printer_status, ih]

/-- C7: a device whose unsubscribe errors internally still returns
normally (the error is logged and swallowed), and for every state —
whatever the per-device failure flags — the stop sequence completes
without aborting: every printer is unsubscribed in order, then the
disconnect request, then the bounded wait for confirmation, then the
cancellation of a live connect task, and the task slot ends cleared. -/
theorem stop_sequence_survives_unsubscribe_errors (s : StopState) :
    mqtt_unsubscribe_printer_status true = Except.ok () ∧
    stop_anycubic_mqtt_connection s =
      Except.ok
        (s.printers.map (fun pf => StopOp.unsubscribe pf.1) ++
           [StopOp.disconnect, StopOp.waitForDisconnect] ++
           (match s.mqtt_task with
            | some task => if !task.done then [StopOp.cancelTask] else []
            | none => []),
         ⟨s.printers, none⟩) := by
  refine ⟨rfl, ?_⟩
  simp [stop_anycubic_mqtt_connection, run_unsubscribes_ok]

/-- C10: whenever the stop sequence runs to completion, the connect-task
slot is None in the final state — whether the slot initially held an
unfinished task, a finished (stale) task, or no task at all — and when
it held a task that was still unfinished, its cancellation appears in
the executed trace before the slot is cleared. -/
theorem stop_clears_connect_task_slot (s : StopState) (ops : List StopOp)
    (st : StopState)
    (h : stop_anycubic_mqtt_connection s = Except.ok (ops, st)) :
    st.mqtt_task = none ∧
    ∀ task : MqttTask, s.mqtt_task = some task → task.done = false →
      StopOp.cancelTask ∈ ops := by
  rw [stop_anycubic_mqtt_connection, run_unsubscribes_ok] at h
  injection h with h2
  injection h2 with hops hst
  subst hops
  subst hst
  refine ⟨rfl, ?_⟩
  intro task htask hdone
  simp [htask, hdone]

/-- Witness for C10: two printers (the first with an internally failing
unsubscribe) and an unfinished connect task; the completed stop leaves
the slot cleared and the trace contains the cancellation. -/
theorem stop_clears_connect_task_slot_witness :
    (⟨[(1, true), (2, false)], none⟩ : StopState).mqtt_task = none ∧
    (∀ task : MqttTask,
      (⟨[(1, true), (2, false)], some ⟨false⟩⟩ : StopState).mqtt_task =
          some task →
      task.done = false →
      StopOp.cancelTask ∈
        ([StopOp.unsubscribe 1, StopOp.unsubscribe 2, StopOp.disconnect,
          StopOp.waitForDisconnect, StopOp.cancelTask] : List StopOp)) :=
  stop_clears_connect_task_slot ⟨[(1, true), (2, false)], some ⟨false⟩⟩
    [StopOp.unsubscribe 1, StopOp.unsubscribe 2, StopOp.disconnect,
     StopOp.waitForDisconnect, StopOp.cancelTask]
    ⟨[(1, true), (2, false)], none⟩ (by rfl)

/-- Every descriptor kept in the remaining (deferred) list by one
descriptor-loop run classifies as defer. -/
theorem eval_descriptors_remaining_defer
    (descs promoted remaining : List Descriptor)
    (h : eval_descriptors descs = Except.ok (promoted, remaining)) :
    ∀ x ∈ remaining,
      classify_descriptor x = Except.ok DescriptorClass.defer := by
  induction descs generalizing promoted remaining with
  | nil =>
    intro x hx
    simp only [eval_descriptors] at h
    injection h with h1
    injection h1 with h1a h1b
    rw [← h1b] at hx
    simp at hx
  | cons d rest ih =>
    intro x hx
    simp only [eval_descriptors] at h
    split at h
    · exact absurd h (by simp)
    · exact ih promoted remaining h x hx
    case _ hc =>
      split at h
      case _ pr hr =>
        injection h with h1
        injection h1 with h1a h1b
        rw [← h1b] at hx
        rcases List.mem_cons.mp hx with hxd | hxr
        · rw [hxd]; exact hc
        · exact ih pr.1 pr.2 (by rw [hr]) x hxr
      · exact absurd h (by simp)
    case _ hc =>
      split at h
      case _ pr hr =>
        injection h with h1
        injection h1 with h1a h1b
        rw [← h1b] at hx
        exact ih pr.1 pr.2 (by rw [hr]) x hx
      · exact absurd h (by simp)

/-- A list of descriptors that all classify as defer evaluates to no
promotions and an unchanged list. -/
theorem eval_descriptors_all_defer (descs : List Descriptor)
    (hall : ∀ x ∈ descs,
      classify_descriptor x = Except.ok DescriptorClass.defer) :
    eval_descriptors descs = Except.ok ([], descs) := by
  induction descs with
  | nil => rfl
  | cons d rest ih =>
    have hd := hall d (List.mem_cons_self d rest)
    have hrest := ih (fun x hx => hall x (List.mem_cons_of_mem d hx))
    simp only [eval_descriptors, hd, hrest]

/-- Re-evaluating the cell produced by one evaluation promotes nothing
and leaves the cell unchanged. -/
theorem eval_descriptor_cell_idempotent (c : Option (List Descriptor))
    (c' : Option (List Descriptor)) (promoted : List Descriptor)
    (h : eval_descriptor_cell c = Except.ok (promoted, c')) :
    eval_descriptor_cell c' = Except.ok ([], c') := by
  cases c with
  | none =>
    simp only [eval_descriptor_cell] at h
    injection h with h1
    injection h1 with h1a h1b
    rw [← h1b]
    rfl
  | some descs =>
    simp only [eval_descriptor_cell] at h
    split at h
    · exact absurd h (by simp)
    case _ pr hr =>
      injection h with h1
      injection h1 with h1a h1b
      have hdef := eval_descriptors_remaining_defer descs pr.1 pr.2 (by rw [hr])
      by_cases hlen : pr.2.length > 0
      · rw [← h1b]
        simp only [hlen, if_pos]
        simp only [eval_descriptor_cell, eval_descriptors_all_defer pr.2 hdef]
        simp [hlen]
      · rw [← h1b]
        simp only [hlen, if_neg]
        rfl

/-- Descriptors still present in a cell after an evaluation all
classify as defer. -/
theorem eval_descriptor_cell_defer (c : Option (List Descriptor))
    (c' : Option (List Descriptor)) (promoted ds : List Descriptor)
    (h : eval_descriptor_cell c = Except.ok (promoted, c'))
    (hds : c' = some ds) :
    ∀ x ∈ ds, classify_descriptor x = Except.ok DescriptorClass.defer := by
  cases c with
  | none =>
    simp only [eval_descriptor_cell] at h
    injection h with h1
    injection h1 with h1a h1b
    rw [← h1b] at hds
    exact absurd hds (by simp)
  | some descs =>
    simp only [eval_descriptor_cell] at h
    split at h
    · exact absurd h (by simp)
    case _ pr hr =>
      injection h with h1
      injection h1 with h1a h1b
      have hdef := eval_descriptors_remaining_defer descs pr.1 pr.2 (by rw [hr])
      by_cases hlen : pr.2.length > 0
      · rw [← h1b] at hds
        simp only [hlen, if_pos] at hds
        injection hds with hds1
        rw [← hds1]
        exact hdef
      · rw [← h1b] at hds
        simp only [hlen, if_neg] at hds
        exact absurd hds (by simp)

/-- Re-running the registration evaluation on the map left by a
completed run promotes nothing and leaves every cell unchanged. -/
theorem add_entities_run_idempotent
    (cells cells' : List (Option (List Descriptor)))
    (promoted : List Descriptor)
    (h : add_entities_run cells = Except.ok (promoted, cells')) :
    add_entities_run cells' = Except.ok ([], cells') := by
  induction cells generalizing promoted cells' with
  | nil =>
    simp only [add_entities_run] at h
    injection h with h1
    injection h1 with h1a h1b
    rw [← h1b]
    rfl
  | cons c rest ih =>
    simp only [add_entities_run] at h
    split at h
    · exact absurd h (by simp)
    case _ pc hc =>
      split at h
      case _ pr hr =>
        injection h with h1
        injection h1 with h1a h1b
        rw [← h1b]
        have hcell := eval_descriptor_cell_idempotent c pc.2 pc.1 (by rw [hc])
        have hrest := ih pr.2 pr.1 (by rw [hr])
        simp only [add_entities_run, hcell, hrest]
        rfl
      · exact absurd h (by simp)

/-- After a completed run, every descriptor still pending in the map
classifies as defer. -/
theorem add_entities_run_cells_defer
    (cells cells' : List (Option (List Descriptor)))
    (promoted ds : List Descriptor)
    (h : add_entities_run cells = Except.ok (promoted, cells'))
    (hds : some ds ∈ cells') :
    ∀ x ∈ ds, classify_descriptor x = Except.ok DescriptorClass.defer := by
  induction cells generalizing promoted cells' with
  | nil =>
    simp only [add_entities_run] at h
    injection h with h1
    injection h1 with h1a h1b
    rw [← h1b] at hds
    exact absurd hds (by simp)
  | cons c rest ih =>
    simp only [add_entities_run] at h
    split at h
    · exact absurd h (by simp)
    case _ pc hc =>
      split at h
      case _ pr hr =>
        injection h with h1
        injection h1 with h1a h1b
        rw [← h1b] at hds
        rcases List.mem_cons.mp hds with hd1 | hd2
        · exact eval_descriptor_cell_defer c pc.2 pc.1 ds (by rw [hc]) hd1.symm
        · exact ih pr.2 pr.1 (by rw [hr]) hd2
      · exact absurd h (by simp)

/-- C8: whenever one run of the descriptor-registration evaluation
completes on an unchanged capability snapshot, running it again promotes
zero descriptors and leaves the pending-descriptor map unchanged;
moreover every descriptor still in the map classifies as defer (each
promoted or dropped descriptor has been removed, each deferred one is
deferred again), so no descriptor is instantiated twice. -/
theorem registrationEngine_idempotent (cells cells' : List (Option (List Descriptor)))
    (promoted : List Descriptor)
    (h : add_entities_run cells = Except.ok (promoted, cells')) :
    add_entities_run cells' = Except.ok ([], cells') ∧
    ∀ ds : List Descriptor, some ds ∈ cells' → ∀ x ∈ ds,
      classify_descriptor x = Except.ok DescriptorClass.defer :=
  ⟨add_entities_run_idempotent cells cells' promoted h,
   fun ds hds => add_entities_run_cells_defer cells cells' promoted ds h hds⟩

/-- Witness for C8: a cell holding one dropped, one deferred and one
promoted descriptor; the first run promotes the third and keeps the
second, the second run promotes nothing and leaves the map unchanged. -/
theorem registrationEngine_idempotent_witness :
    add_entities_run [some [c8DeferDesc], none] =
      Except.ok ([], [some [c8DeferDesc], none]) ∧
    ∀ ds : List Descriptor, some ds ∈
        ([some [c8DeferDesc], none] : List (Option (List Descriptor))) →
      ∀ x ∈ ds,
        classify_descriptor x = Except.ok DescriptorClass.defer :=
  registrationEngine_idempotent [some [c8DropDesc, c8DeferDesc, c8PromoteDesc], none]
    [some [c8DeferDesc], none] [c8PromoteDesc] (by rfl)

end AnycubicCoordinator
